import Mathlib

/-!
# Permission-gated dispatch of the user service

A shallow embedding of `main.go`: the `permissionHandler` gate and the HTTP
handlers registered in `main`.

Stateful Go code is embedded by explicit state passing.  The gate is generic
in the state type `ω` it threads through its collaborators (the authorization
oracle, the deny function and the multiplexer), which are arbitrary functions
on `ω`.  The handlers run on the concrete state `World σ`: the store `σ` behind
the session middleware together with the chronological list of observable
effects.

External collaborators are parameters: `pinterface.IPermissions`,
`pinterface.IUserState`, and the JSON decoders of the `requests` package.
-/

namespace Userservice

/-! ## Requests and sinks -/

/-- Identity of an `http.ResponseWriter`: the sink of one request. -/
abbrev ResponseWriter := Nat

/-- The fields of `*http.Request` the program and its collaborators look at:
`req.Method`, `req.URL.Path`, the headers (they carry the session cookie, read
only by the middleware) and `req.Body`. -/
structure Request where
  Method : String
  Path : String
  Header : List (String × String)
  Body : String
  deriving DecidableEq, Repr

/-- An `http.HandlerFunc`: `func(w http.ResponseWriter, req *http.Request)`,
acting on the state `ω`. -/
abbrev HandlerFunc (ω : Type) := ResponseWriter → Request → ω → ω

/-! ## The gate (`main.go`, lines 14-37) -/

/-- The part of `pinterface.IPermissions` the program uses.  `Rejected` is the
authorization oracle: it returns its verdict and may change the state.
`denied` is the configured deny function, read by `DenyFunction` and replaced
by `SetDenyFunction`. -/
structure IPermissions (ω : Type) where
  Rejected : ResponseWriter → Request → ω → Bool × ω
  denied : HandlerFunc ω

/-- Getter `perm.DenyFunction()`: the deny function currently configured. -/
def IPermissions.DenyFunction {ω : Type} (perm : IPermissions ω) : HandlerFunc ω :=
  perm.denied

/-- Setter `perm.SetDenyFunction(f)`: replaces the configured deny function. -/
def IPermissions.SetDenyFunction {ω : Type} (perm : IPermissions ω) (f : HandlerFunc ω) :
    IPermissions ω :=
  { perm with denied := f }

/-- The router as the gate sees it: something with a `ServeHTTP` method. -/
structure Mux (ω : Type) where
  ServeHTTP : HandlerFunc ω

/-- The struct `permissionHandler { perm; mux }`. -/
structure permissionHandler (ω : Type) where
  perm : IPermissions ω
  mux : Mux ω

/-- The method `(ph *permissionHandler) ServeHTTP(w, req)`:
```go
if ph.perm.Rejected(w, req) {
    ph.perm.DenyFunction()(w, req)
    return
}
ph.mux.ServeHTTP(w, req)
```
-/
def permissionHandler.ServeHTTP {ω : Type} (ph : permissionHandler ω) : HandlerFunc ω :=
  fun w req s =>
    let r := ph.perm.Rejected w req s
    if r.1 then
      ph.perm.DenyFunction w req r.2
    else
      ph.mux.ServeHTTP w req r.2

/-! ## Spies on the gate's collaborators

A spy wraps a collaborator: it behaves exactly like the original on the state
`ω` and records the call in a log the collaborators cannot see. -/

/-- A call made by the gate. `Rejected` records the verdict that was returned. -/
inductive Call where
  | Rejected (w : ResponseWriter) (req : Request) (verdict : Bool)
  | Deny (w : ResponseWriter) (req : Request)
  | Dispatch (w : ResponseWriter) (req : Request)
  deriving DecidableEq, Repr

/-- Is the call a call of the oracle? -/
def Call.isRejected : Call → Bool
  | Call.Rejected _ _ _ => true
  | _ => false

/-- Is the call a call of the deny function? -/
def Call.isDeny : Call → Bool
  | Call.Deny _ _ => true
  | _ => false

/-- Is the call a call of the router? -/
def Call.isDispatch : Call → Bool
  | Call.Dispatch _ _ => true
  | _ => false

/-- The oracle and the deny function, each recording its calls. -/
def spyPerm {ω : Type} (perm : IPermissions ω) : IPermissions (ω × List Call) where
  Rejected := fun w req s =>
    let r := perm.Rejected w req s.1
    (r.1, (r.2, s.2 ++ [Call.Rejected w req r.1]))
  denied := fun w req s => (perm.denied w req s.1, s.2 ++ [Call.Deny w req])

/-- The router, recording its calls. -/
def spyMux {ω : Type} (mux : Mux ω) : Mux (ω × List Call) where
  ServeHTTP := fun w req s => (mux.ServeHTTP w req s.1, s.2 ++ [Call.Dispatch w req])

/-- The gate with all three collaborators spied on. -/
def spied {ω : Type} (ph : permissionHandler ω) : permissionHandler (ω × List Call) :=
  { perm := spyPerm ph.perm, mux := spyMux ph.mux }

/-! ## A small concrete instance of the gate, over a counter -/

/-- Oracle that rejects the requests whose method is `DELETE`, bumping the
state by one. -/
def demoPerm : IPermissions Nat where
  Rejected := fun _ req s => (req.Method = "DELETE", s + 1)
  denied := fun _ _ s => s + 10

/-- Router that bumps the state by one hundred. -/
def demoMux : Mux Nat where
  ServeHTTP := fun _ _ s => s + 100

/-- A `DELETE` request. -/
def demoDelete : Request := ⟨"DELETE", "/data", [], ""⟩

/-- A `GET` request. -/
def demoGet : Request := ⟨"GET", "/data", [], ""⟩

/-! ## The world the handlers run in -/

/-- An observable effect of a handler: an `http.Error` response written to a
sink, a line handed to the `log` package, or a call of a method of the session
middleware with its arguments. -/
inductive Event where
  | Error (w : ResponseWriter) (error : String) (code : Nat)
  | Printf (line : String)
  | UsernameCookie (req : Request)
  | UserRights (req : Request)
  | AdminRights (req : Request)
  | AddUser (username password email : String)
  | MarkConfirmed (username : String)
  | CorrectPassword (username password : String)
  | Login (w : ResponseWriter) (username : String)
  | Logout (username : String)
  | IsLoggedIn (username : String)
  deriving DecidableEq, Repr

/-- The state the handlers act on: the store behind the session middleware and
the effects so far, oldest first. -/
structure World (σ : Type) where
  store : σ
  trace : List Event
  deriving DecidableEq, Repr

/-- Is the event a response written to the sink `w`? -/
def Event.isWrite (w : ResponseWriter) : Event → Bool
  | Event.Error w' _ _ => w' == w
  | _ => false

/-- Number of responses written to the sink `w` in a trace. -/
def writes (w : ResponseWriter) (t : List Event) : Nat :=
  t.countP (Event.isWrite w)

/-- The events added to the trace between the worlds `s` and `s'`. -/
def emitted {σ : Type} (s s' : World σ) : List Event :=
  s'.trace.drop s.trace.length

/-- The methods of `pinterface.IUserState` the handlers call.  Each may read
and change the store.  A Go `error` is `none` for `nil`, else its message. -/
structure IUserState (σ : Type) where
  UsernameCookie : Request → σ → (String × Option String) × σ
  UserRights : Request → σ → Bool × σ
  AdminRights : Request → σ → Bool × σ
  AddUser : String → String → String → σ → σ
  MarkConfirmed : String → σ → σ
  CorrectPassword : String → String → σ → Bool × σ
  Login : ResponseWriter → String → σ → Option String × σ
  Logout : String → σ → σ
  IsLoggedIn : String → σ → Bool × σ

namespace requests

/-- Modelled from the spec: the payload type `requests.Register` of the package
`userservice/requests`, whose declaration is missing; the spec gives it as JSON
`{username, password}` and the handler reads `.Username` and `.Password`. -/
structure Register where
  Username : String
  Password : String
  deriving DecidableEq, Repr

/-- Modelled from the spec: the payload type `requests.Login` of the package
`userservice/requests`, whose declaration is missing; the spec gives it as JSON
`{username, password}` and the handler reads `.Username` and `.Password`. -/
structure Login where
  Username : String
  Password : String
  deriving DecidableEq, Repr

end requests

/-- What the closures registered in `main` capture: the session middleware
`perm.UserState()` and, for each payload type, the result of
`json.NewDecoder(req.Body).Decode(&x)` as a function of the body: `none` when
`Decode` returns an error, else the decoded value. -/
structure Env (σ : Type) where
  middleware : IUserState σ
  decodeRegister : String → Option requests.Register
  decodeLogin : String → Option requests.Login

namespace http

/-- Status code `http.StatusBadRequest`. -/
def StatusBadRequest : Nat := 400
/-- Status code `http.StatusForbidden`. -/
def StatusForbidden : Nat := 403
/-- Status code `http.StatusNotFound`. -/
def StatusNotFound : Nat := 404
/-- Status code `http.StatusInternalServerError`. -/
def StatusInternalServerError : Nat := 500
/-- Status code `http.StatusNotImplemented`. -/
def StatusNotImplemented : Nat := 501

/-- The call `http.Error(w, error, code)`: one response written to `w`. -/
def Error {σ : Type} (w : ResponseWriter) (error : String) (code : Nat) (s : World σ) :
    World σ :=
  { s with trace := s.trace ++ [Event.Error w error code] }

end http

namespace log

/-- The calls `log.Printf` and `log.Println`, with the line already formatted. -/
def Printf {σ : Type} (line : String) (s : World σ) : World σ :=
  { s with trace := s.trace ++ [Event.Printf line] }

end log

/-- Go formatting of a `bool` under `%v`. -/
def fmtBool (b : Bool) : String := if b then "true" else "false"

/-! ### Calls of the middleware, recorded in the trace -/

namespace middleware

/-- The call `middleware.UsernameCookie(req)`. -/
def UsernameCookie {σ : Type} (env : Env σ) (req : Request) (s : World σ) :
    (String × Option String) × World σ :=
  let r := env.middleware.UsernameCookie req s.store
  (r.1, ⟨r.2, s.trace ++ [Event.UsernameCookie req]⟩)

/-- The call `middleware.UserRights(req)`. -/
def UserRights {σ : Type} (env : Env σ) (req : Request) (s : World σ) : Bool × World σ :=
  let r := env.middleware.UserRights req s.store
  (r.1, ⟨r.2, s.trace ++ [Event.UserRights req]⟩)

/-- The call `middleware.AdminRights(req)`. -/
def AdminRights {σ : Type} (env : Env σ) (req : Request) (s : World σ) : Bool × World σ :=
  let r := env.middleware.AdminRights req s.store
  (r.1, ⟨r.2, s.trace ++ [Event.AdminRights req]⟩)

/-- The call `middleware.AddUser(username, password, email)`. -/
def AddUser {σ : Type} (env : Env σ) (username password email : String) (s : World σ) :
    World σ :=
  ⟨env.middleware.AddUser username password email s.store,
   s.trace ++ [Event.AddUser username password email]⟩

/-- The call `middleware.MarkConfirmed(username)`. -/
def MarkConfirmed {σ : Type} (env : Env σ) (username : String) (s : World σ) : World σ :=
  ⟨env.middleware.MarkConfirmed username s.store, s.trace ++ [Event.MarkConfirmed username]⟩

/-- The call `middleware.CorrectPassword(username, password)`. -/
def CorrectPassword {σ : Type} (env : Env σ) (username password : String) (s : World σ) :
    Bool × World σ :=
  let r := env.middleware.CorrectPassword username password s.store
  (r.1, ⟨r.2, s.trace ++ [Event.CorrectPassword username password]⟩)

/-- The call `middleware.Login(w, username)`. -/
def Login {σ : Type} (env : Env σ) (w : ResponseWriter) (username : String) (s : World σ) :
    Option String × World σ :=
  let r := env.middleware.Login w username s.store
  (r.1, ⟨r.2, s.trace ++ [Event.Login w username]⟩)

/-- The call `middleware.Logout(username)`. -/
def Logout {σ : Type} (env : Env σ) (username : String) (s : World σ) : World σ :=
  ⟨env.middleware.Logout username s.store, s.trace ++ [Event.Logout username]⟩

/-- The call `middleware.IsLoggedIn(username)`. -/
def IsLoggedIn {σ : Type} (env : Env σ) (username : String) (s : World σ) : Bool × World σ :=
  let r := env.middleware.IsLoggedIn username s.store
  (r.1, ⟨r.2, s.trace ++ [Event.IsLoggedIn username]⟩)

end middleware

/-! ## The handlers registered in `main` (`main.go`, lines 63-148) -/

/-- The closure registered for `/info` (lines 63-72).  The arguments of a
`log.Printf` are evaluated before the line is logged. -/
def infoHandler {σ : Type} (env : Env σ) : HandlerFunc (World σ) :=
  fun _ req s =>
    let r := middleware.UsernameCookie env req s
    let username := r.1.1
    if username ≠ "" then
      let s1 := log.Printf ("User '" ++ username ++ "' is logged in") r.2
      let ur := middleware.UserRights env req s1
      let s2 := log.Printf ("User '" ++ username ++ "' has user rights?: " ++ fmtBool ur.1) ur.2
      let ar := middleware.AdminRights env req s2
      log.Printf ("User '" ++ username ++ "' has admin rights?: " ++ fmtBool ar.1) ar.2
    else
      log.Printf "User is not logged in" r.2

/-- The closure registered for `/register` (lines 74-85). -/
def registerHandler {σ : Type} (env : Env σ) : HandlerFunc (World σ) :=
  fun w req s =>
    match env.decodeRegister req.Body with
    | none => http.Error w "Bad request" http.StatusBadRequest s
    | some registerRequest =>
      let s1 := middleware.AddUser env registerRequest.Username registerRequest.Password "" s
      let s2 := middleware.MarkConfirmed env registerRequest.Username s1
      log.Printf ("User " ++ registerRequest.Username ++ " was created") s2

/-- The closures registered for `/admin/remove`, `/admin/makeadmin`, `/data`
and `/admin` (lines 87-91 and 131-148): each only answers 501. -/
def notImplementedHandler {σ : Type} : HandlerFunc (World σ) :=
  fun w _ s => http.Error w "Not implemented" http.StatusNotImplemented s

/-- The closure registered for `/login` (lines 93-119). -/
def loginHandler {σ : Type} (env : Env σ) : HandlerFunc (World σ) :=
  fun w req s =>
    if req.Method = "POST" then
      match env.decodeLogin req.Body with
      | none => http.Error w "Malformed input" http.StatusBadRequest s
      | some loginRequest =>
        let cp := middleware.CorrectPassword env loginRequest.Username loginRequest.Password s
        if cp.1 then
          let lr := middleware.Login env w loginRequest.Username cp.2
          match lr.1 with
          | some err =>
            let s1 := log.Printf ("Cannot requests user:  " ++ err) lr.2
            http.Error w "Internal Server error" http.StatusInternalServerError s1
          | none => log.Printf ("Logged in user " ++ loginRequest.Username) lr.2
        else
          http.Error w "Wrong password" http.StatusForbidden cp.2
    else
      http.Error w "Not Found" http.StatusNotFound s

/-- The closure registered for `/logout` (lines 121-129).  The error branch
has no `return`: the handler goes on to `Logout`. -/
def logoutHandler {σ : Type} (env : Env σ) : HandlerFunc (World σ) :=
  fun w req s =>
    let r := middleware.UsernameCookie env req s
    let username := r.1.1
    let s1 := match r.1.2 with
      | some _ => http.Error w "Bad request" http.StatusBadRequest r.2
      | none => r.2
    let s2 := middleware.Logout env username s1
    let li := middleware.IsLoggedIn env username s2
    log.Printf (username ++ " is now logged out: " ++ fmtBool (!li.1) ++ "\n") li.2

/-! ## The multiplexer

`http.ServeMux` belongs to the Go standard library.  It is embedded for the
patterns `main` registers, none of which ends in a slash or names a host: such
a pattern matches exactly the requests whose path equals it, and a request no
pattern matches gets `http.NotFound`.  Redirection of paths that are not in
canonical form is left out. -/

/-- The route table of an `http.ServeMux`: patterns with their handlers, in
the order of registration. -/
structure ServeMux (σ : Type) where
  m : List (String × HandlerFunc (World σ))

/-- The constructor `http.NewServeMux()`: an empty route table. -/
def NewServeMux {σ : Type} : ServeMux σ := ⟨[]⟩

/-- The call `mux.HandleFunc(pattern, handler)`. -/
def ServeMux.HandleFunc {σ : Type} (mux : ServeMux σ) (pattern : String)
    (handler : HandlerFunc (World σ)) : ServeMux σ :=
  ⟨mux.m ++ [(pattern, handler)]⟩

/-- The handler `http.NotFound`. -/
def NotFound {σ : Type} : HandlerFunc (World σ) :=
  fun w _ s => http.Error w "404 page not found" http.StatusNotFound s

/-- The method `mux.Handler(req)`: the handler to use for the request and the
pattern it is registered under; `NotFound` and the empty pattern when no
pattern matches. -/
def ServeMux.Handler {σ : Type} (mux : ServeMux σ) (req : Request) :
    HandlerFunc (World σ) × String :=
  match mux.m.find? (fun e => e.1 == req.Path) with
  | some e => (e.2, e.1)
  | none => (NotFound, "")

/-- The method `mux.ServeHTTP(w, req)`: dispatch to the handler found. -/
def ServeMux.ServeHTTP {σ : Type} (mux : ServeMux σ) : HandlerFunc (World σ) :=
  fun w req s => (mux.Handler req).1 w req s

/-- The multiplexer as the router of a gate. -/
def ServeMux.toMux {σ : Type} (mux : ServeMux σ) : Mux (World σ) :=
  ⟨mux.ServeHTTP⟩

/-! ## The wiring done by `main` (`main.go`, lines 39-162) -/

/-- The route table built by `main`: eight registrations, in source order. -/
def main.mux {σ : Type} (env : Env σ) : ServeMux σ :=
  (((((((NewServeMux.HandleFunc "/info" (infoHandler env)).HandleFunc
    "/register" (registerHandler env)).HandleFunc
    "/admin/remove" notImplementedHandler).HandleFunc
    "/login" (loginHandler env)).HandleFunc
    "/logout" (logoutHandler env)).HandleFunc
    "/admin/makeadmin" notImplementedHandler).HandleFunc
    "/data" notImplementedHandler).HandleFunc
    "/admin" notImplementedHandler

/-- The deny function `main` configures (lines 151-153). -/
def main.denyFunction {σ : Type} : HandlerFunc (World σ) :=
  fun w _ s => http.Error w "Permission denied!" http.StatusForbidden s

/-- The handler of the server (line 158): `&permissionHandler{perm, mux}`,
where `perm` has had its deny function set. -/
def main.Handler {σ : Type} (perm : IPermissions (World σ)) (env : Env σ) :
    permissionHandler (World σ) :=
  ⟨perm.SetDenyFunction main.denyFunction, (main.mux env).toMux⟩

/-! ## Oracles used in the scenarios -/

/-- Go `strings.HasPrefix(s, pre)`. -/
def startsWith (s pre : String) : Bool := pre.data.isPrefixOf s.data

/-- An oracle that rejects exactly the requests whose path starts with
`/admin`, and touches nothing. -/
def adminOracle {σ : Type} : IPermissions (World σ) where
  Rejected := fun _ req s => (startsWith req.Path "/admin", s)
  denied := fun _ _ s => s

/-- An oracle that rejects nothing and touches nothing. -/
def allowAll {σ : Type} : IPermissions (World σ) where
  Rejected := fun _ _ s => (false, s)
  denied := fun _ _ s => s

/-! ## A concrete middleware, for running the handlers -/

/-- A store: the registered users with their passwords, and the users that
are logged in. -/
structure DemoStore where
  users : List (String × String)
  sessions : List String
  deriving DecidableEq, Repr

/-- The value of the header `User`, or the empty string. -/
def headerUser : List (String × String) → String
  | [] => ""
  | (k, v) :: rest => if k = "User" then v else headerUser rest

/-- A session middleware over `DemoStore`.  The user of a request is named by
its `User` header; a missing header is an error. -/
def demoUserState : IUserState DemoStore where
  UsernameCookie := fun req st =>
    if headerUser req.Header = "" then (("", some "no cookie"), st)
    else ((headerUser req.Header, none), st)
  UserRights := fun req st => (decide (headerUser req.Header ∈ st.sessions), st)
  AdminRights := fun _ st => (false, st)
  AddUser := fun u p _ st => { st with users := st.users ++ [(u, p)] }
  MarkConfirmed := fun _ st => st
  CorrectPassword := fun u p st => (decide ((u, p) ∈ st.users), st)
  Login := fun _ u st => (none, { st with sessions := st.sessions ++ [u] })
  Logout := fun u st => { st with sessions := st.sessions.filter (fun x => x != u) }
  IsLoggedIn := fun u st => (decide (u ∈ st.sessions), st)

/-- The body `{"username":"bob","password":"pw"}`. -/
def bobBody : String := "\x7b\"username\":\"bob\",\"password\":\"pw\"\x7d"

/-- Decoders that accept exactly `bobBody`. -/
def demoEnv : Env DemoStore where
  middleware := demoUserState
  decodeRegister := fun body => if body = bobBody then some ⟨"bob", "pw"⟩ else none
  decodeLogin := fun body => if body = bobBody then some ⟨"bob", "pw"⟩ else none

/-- The same, over a middleware whose `Login` fails with an error. -/
def brokenLoginEnv : Env DemoStore where
  middleware := { demoUserState with Login := fun _ _ st => (some "store closed", st) }
  decodeRegister := demoEnv.decodeRegister
  decodeLogin := demoEnv.decodeLogin

/-- The world with no user and no effect yet. -/
def emptyWorld : World DemoStore := ⟨⟨[], []⟩, []⟩

/-- The world in which `bob` is registered with password `pw`. -/
def bobWorld : World DemoStore := ⟨⟨[("bob", "pw")], []⟩, []⟩

/-! ## Theorems about the gate -/

/-- Running the spied gate is running the gate, plus the log. -/
theorem spied_fst {ω : Type} (ph : permissionHandler ω) (w : ResponseWriter) (req : Request)
    (s : ω) (l : List Call) :
    ((spied ph).ServeHTTP w req (s, l)).1 = ph.ServeHTTP w req s := by
  unfold permissionHandler.ServeHTTP spied spyPerm spyMux IPermissions.DenyFunction
  by_cases h : (ph.perm.Rejected w req s).1 = true <;> simp [h]

/-- C1: when the oracle rejects `(w, req)`, the gate calls the configured deny
function exactly once, with the same `(w, req)` and on the state the oracle
left, and never calls the router: the calls recorded are the oracle's and then
the deny function's, nothing else. -/
theorem ServeHTTP_rejected {ω : Type} (ph : permissionHandler ω) (w : ResponseWriter)
    (req : Request) (s : ω) (l : List Call)
    (h : (ph.perm.Rejected w req s).1 = true) :
    (spied ph).ServeHTTP w req (s, l)
        = (ph.perm.DenyFunction w req (ph.perm.Rejected w req s).2,
           l ++ [Call.Rejected w req true, Call.Deny w req])
      ∧ ph.ServeHTTP w req s = ph.perm.DenyFunction w req (ph.perm.Rejected w req s).2
      ∧ (((spied ph).ServeHTTP w req (s, [])).2.filter Call.isDeny) = [Call.Deny w req]
      ∧ (((spied ph).ServeHTTP w req (s, [])).2.filter Call.isDispatch) = [] := by
  unfold permissionHandler.ServeHTTP spied spyPerm spyMux IPermissions.DenyFunction
  simp [h, Call.isDeny, Call.isDispatch]

/-- Witness for C1: the demo oracle rejects a `DELETE` request. -/
theorem ServeHTTP_rejected_witness :
    (demoPerm.Rejected 0 demoDelete 0).1 = true
      ∧ (spied ⟨demoPerm, demoMux⟩).ServeHTTP 0 demoDelete (0, [])
          = (11, [Call.Rejected 0 demoDelete true, Call.Deny 0 demoDelete]) :=
  ⟨by decide,
   (ServeHTTP_rejected ⟨demoPerm, demoMux⟩ 0 demoDelete 0 [] (by decide)).1⟩

/-- C2: when the oracle does not reject `(w, req)`, the gate never calls the
deny function and calls the router exactly once, with the same `(w, req)`; the
calls recorded are the oracle's and then the router's, and the gate's effect
is the oracle check followed by the router's dispatch, nothing more. -/
theorem ServeHTTP_allowed {ω : Type} (ph : permissionHandler ω) (w : ResponseWriter)
    (req : Request) (s : ω) (l : List Call)
    (h : (ph.perm.Rejected w req s).1 = false) :
    (spied ph).ServeHTTP w req (s, l)
        = (ph.mux.ServeHTTP w req (ph.perm.Rejected w req s).2,
           l ++ [Call.Rejected w req false, Call.Dispatch w req])
      ∧ ph.ServeHTTP w req s = ph.mux.ServeHTTP w req (ph.perm.Rejected w req s).2
      ∧ (((spied ph).ServeHTTP w req (s, [])).2.filter Call.isDeny) = []
      ∧ (((spied ph).ServeHTTP w req (s, [])).2.filter Call.isDispatch)
          = [Call.Dispatch w req] := by
  unfold permissionHandler.ServeHTTP spied spyPerm spyMux IPermissions.DenyFunction
  simp [h, Call.isDeny, Call.isDispatch]

/-- Witness for C2: the demo oracle lets a `GET` request through. -/
theorem ServeHTTP_allowed_witness :
    (demoPerm.Rejected 0 demoGet 0).1 = false
      ∧ (spied ⟨demoPerm, demoMux⟩).ServeHTTP 0 demoGet (0, [])
          = (101, [Call.Rejected 0 demoGet false, Call.Dispatch 0 demoGet]) :=
  ⟨by decide,
   (ServeHTTP_allowed ⟨demoPerm, demoMux⟩ 0 demoGet 0 [] (by decide)).1⟩

/-- C4: in every invocation of the gate the oracle is called exactly once and
first: the calls recorded are the oracle's call followed by exactly one more
call, the deny function's after a reject verdict and the router's after a
non-reject verdict.  So a call of the router is preceded by an oracle call
that returned `false`. -/
theorem ServeHTTP_oracle_first {ω : Type} (ph : permissionHandler ω) (w : ResponseWriter)
    (req : Request) (s : ω) :
    ((spied ph).ServeHTTP w req (s, [])).2
        = [Call.Rejected w req (ph.perm.Rejected w req s).1,
           if (ph.perm.Rejected w req s).1 then Call.Deny w req else Call.Dispatch w req]
      ∧ (((spied ph).ServeHTTP w req (s, [])).2.filter Call.isRejected).length = 1
      ∧ (((spied ph).ServeHTTP w req (s, [])).2.head?).map Call.isRejected = some true
      ∧ (∀ w' req', Call.Dispatch w' req' ∈ ((spied ph).ServeHTTP w req (s, [])).2 →
          Call.Rejected w req false ∈ ((spied ph).ServeHTTP w req (s, [])).2
            ∧ (ph.perm.Rejected w req s).1 = false) := by
  unfold permissionHandler.ServeHTTP spied spyPerm spyMux IPermissions.DenyFunction
  by_cases h : (ph.perm.Rejected w req s).1 = true
  · simp [h, Call.isRejected]
  · simp only [Bool.not_eq_true] at h
    simp [h, Call.isRejected]

/-- Witness for C4: the demo gate passes a `GET` request to its router, after
an oracle call that returned `false`. -/
theorem ServeHTTP_oracle_first_witness :
    Call.Dispatch 0 demoGet ∈ ((spied ⟨demoPerm, demoMux⟩).ServeHTTP 0 demoGet (0, [])).2
      ∧ Call.Rejected 0 demoGet false
          ∈ ((spied ⟨demoPerm, demoMux⟩).ServeHTTP 0 demoGet (0, [])).2
      ∧ (demoPerm.Rejected 0 demoGet 0).1 = false :=
  ⟨by decide,
   (ServeHTTP_oracle_first ⟨demoPerm, demoMux⟩ 0 demoGet 0).2.2.2 0 demoGet (by decide)⟩

/-- C5: on a request the oracle does not reject, the gate does the same with
any two deny functions configured, on the state and in the calls it makes; on
a request the oracle rejects, the gate's effect is that of the deny function
configured last, applied to the state the oracle left. -/
theorem ServeHTTP_deny_function_swap {ω : Type} (perm : IPermissions ω) (mux : Mux ω)
    (D1 D2 : HandlerFunc ω) (w : ResponseWriter) (req : Request) (s : ω) :
    ((perm.Rejected w req s).1 = false →
        permissionHandler.ServeHTTP ⟨perm.SetDenyFunction D1, mux⟩ w req s
            = permissionHandler.ServeHTTP ⟨perm.SetDenyFunction D2, mux⟩ w req s
          ∧ (spied ⟨perm.SetDenyFunction D1, mux⟩).ServeHTTP w req (s, [])
            = (spied ⟨perm.SetDenyFunction D2, mux⟩).ServeHTTP w req (s, []))
      ∧ ((perm.Rejected w req s).1 = true →
        permissionHandler.ServeHTTP ⟨perm.SetDenyFunction D1, mux⟩ w req s
            = D1 w req (perm.Rejected w req s).2
          ∧ permissionHandler.ServeHTTP ⟨(perm.SetDenyFunction D1).SetDenyFunction D2, mux⟩
              w req s = D2 w req (perm.Rejected w req s).2) := by
  unfold permissionHandler.ServeHTTP spied spyPerm spyMux IPermissions.DenyFunction
    IPermissions.SetDenyFunction
  constructor <;> intro h <;> simp [h]

/-- Witness for C5: a `GET` request is served alike under two deny functions,
and a `DELETE` request gets the deny function configured. -/
theorem ServeHTTP_deny_function_swap_witness :
    (permissionHandler.ServeHTTP ⟨demoPerm.SetDenyFunction (fun _ _ s => s + 20), demoMux⟩
        0 demoGet 0
      = permissionHandler.ServeHTTP ⟨demoPerm.SetDenyFunction (fun _ _ s => s + 30), demoMux⟩
        0 demoGet 0)
      ∧ permissionHandler.ServeHTTP ⟨demoPerm.SetDenyFunction (fun _ _ s => s + 20), demoMux⟩
        0 demoDelete 0 = 21 :=
  ⟨((ServeHTTP_deny_function_swap demoPerm demoMux (fun _ _ s => s + 20)
      (fun _ _ s => s + 30) 0 demoGet 0).1 (by decide)).1,
   ((ServeHTTP_deny_function_swap demoPerm demoMux (fun _ _ s => s + 20)
      (fun _ _ s => s + 30) 0 demoDelete 0).2 (by decide)).1⟩

/-! ## Lemmas about traces -/

/-- What a world built by appending to the trace has emitted. -/
theorem emitted_append {σ : Type} (s : World σ) (st : σ) (l : List Event) :
    emitted s ⟨st, s.trace ++ l⟩ = l := by
  simp [emitted]

/-- Writes add up over an append. -/
theorem writes_append (w : ResponseWriter) (a b : List Event) :
    writes w (a ++ b) = writes w a + writes w b := by
  simp [writes, List.countP_append]

/-- An `http.Error` is one more write to its sink. -/
theorem writes_Error {σ : Type} (w : ResponseWriter) (error : String) (code : Nat)
    (s : World σ) :
    writes w (http.Error w error code s).trace = writes w s.trace + 1 := by
  simp [http.Error, writes, List.countP_append, Event.isWrite]

/-- The `/info` handler writes no response. -/
theorem writes_infoHandler {σ : Type} (env : Env σ) (w w' : ResponseWriter) (req : Request)
    (s : World σ) :
    writes w (infoHandler env w' req s).trace = writes w s.trace := by
  unfold infoHandler
  by_cases h : (env.middleware.UsernameCookie req s.store).1.1 = ""
  · simp [h, middleware.UsernameCookie, log.Printf, writes, List.countP_append, Event.isWrite]
  · simp [h, middleware.UsernameCookie, middleware.UserRights, middleware.AdminRights,
      log.Printf, writes, List.countP_append, Event.isWrite]

/-- The `/register` handler writes at most one response. -/
theorem writes_registerHandler {σ : Type} (env : Env σ) (w : ResponseWriter) (req : Request)
    (s : World σ) :
    writes w (registerHandler env w req s).trace ≤ writes w s.trace + 1 := by
  unfold registerHandler
  cases h : env.decodeRegister req.Body with
  | none => simp [http.Error, writes, List.countP_append, Event.isWrite]
  | some r =>
    simp [middleware.AddUser, middleware.MarkConfirmed, log.Printf, writes,
      List.countP_append, Event.isWrite]

/-- The `/login` handler writes at most one response. -/
theorem writes_loginHandler {σ : Type} (env : Env σ) (w : ResponseWriter) (req : Request)
    (s : World σ) :
    writes w (loginHandler env w req s).trace ≤ writes w s.trace + 1 := by
  unfold loginHandler
  by_cases hm : req.Method = "POST"
  · cases hd : env.decodeLogin req.Body with
    | none => simp [hm, http.Error, writes, List.countP_append, Event.isWrite]
    | some r =>
      by_cases hc : (env.middleware.CorrectPassword r.Username r.Password s.store).1 = true
      · cases hl : (env.middleware.Login w r.Username
            (env.middleware.CorrectPassword r.Username r.Password s.store).2).1 with
        | none =>
          simp [hm, hc, hl, middleware.CorrectPassword, middleware.Login, log.Printf,
            writes, List.countP_append, Event.isWrite]
        | some e =>
          simp [hm, hc, hl, middleware.CorrectPassword, middleware.Login, log.Printf,
            http.Error, writes, List.countP_append, Event.isWrite]
      · simp [hm, hc, middleware.CorrectPassword, http.Error, writes, List.countP_append,
          Event.isWrite]
  · simp [hm, http.Error, writes, List.countP_append, Event.isWrite]

/-- The `/logout` handler writes at most one response. -/
theorem writes_logoutHandler {σ : Type} (env : Env σ) (w : ResponseWriter) (req : Request)
    (s : World σ) :
    writes w (logoutHandler env w req s).trace ≤ writes w s.trace + 1 := by
  unfold logoutHandler
  cases h : (env.middleware.UsernameCookie req s.store).1.2 with
  | none =>
    simp [h, middleware.UsernameCookie, middleware.Logout, middleware.IsLoggedIn, log.Printf,
      writes, List.countP_append, Event.isWrite]
  | some e =>
    simp [h, middleware.UsernameCookie, middleware.Logout, middleware.IsLoggedIn, log.Printf,
      http.Error, writes, List.countP_append, Event.isWrite]

/-- The `/register` handler writes one response when the body does not decode,
and none when it does. -/
theorem writes_registerHandler_eq {σ : Type} (env : Env σ) (w : ResponseWriter)
    (req : Request) (s : World σ) :
    writes w (registerHandler env w req s).trace
      = writes w s.trace + (match env.decodeRegister req.Body with
          | none => 1
          | some _ => 0) := by
  unfold registerHandler
  cases h : env.decodeRegister req.Body with
  | none => simp [http.Error, writes, List.countP_append, Event.isWrite]
  | some r =>
    simp [middleware.AddUser, middleware.MarkConfirmed, log.Printf, writes,
      List.countP_append, Event.isWrite]

/-- The `/login` handler writes no response when the login succeeds, and one
on each of its other paths. -/
theorem writes_loginHandler_eq {σ : Type} (env : Env σ) (w : ResponseWriter)
    (req : Request) (s : World σ) :
    writes w (loginHandler env w req s).trace
      = writes w s.trace + (if req.Method = "POST" then
          match env.decodeLogin req.Body with
          | none => 1
          | some r =>
            if (env.middleware.CorrectPassword r.Username r.Password s.store).1 then
              match (env.middleware.Login w r.Username
                (env.middleware.CorrectPassword r.Username r.Password s.store).2).1 with
              | none => 0
              | some _ => 1
            else 1
        else 1) := by
  unfold loginHandler
  by_cases hm : req.Method = "POST"
  · cases hd : env.decodeLogin req.Body with
    | none => simp [hm, http.Error, writes, List.countP_append, Event.isWrite]
    | some r =>
      by_cases hc : (env.middleware.CorrectPassword r.Username r.Password s.store).1 = true
      · cases hl : (env.middleware.Login w r.Username
            (env.middleware.CorrectPassword r.Username r.Password s.store).2).1 with
        | none =>
          simp [hm, hc, hl, middleware.CorrectPassword, middleware.Login, log.Printf,
            writes, List.countP_append, Event.isWrite]
        | some e =>
          simp [hm, hc, hl, middleware.CorrectPassword, middleware.Login, log.Printf,
            http.Error, writes, List.countP_append, Event.isWrite]
      · simp [hm, hc, middleware.CorrectPassword, http.Error, writes, List.countP_append,
          Event.isWrite]
  · simp [hm, http.Error, writes, List.countP_append, Event.isWrite]

/-- The `/logout` handler writes one response when `UsernameCookie` returns an
error, and none otherwise. -/
theorem writes_logoutHandler_eq {σ : Type} (env : Env σ) (w : ResponseWriter)
    (req : Request) (s : World σ) :
    writes w (logoutHandler env w req s).trace
      = writes w s.trace + (match (env.middleware.UsernameCookie req s.store).1.2 with
          | none => 0
          | some _ => 1) := by
  unfold logoutHandler
  cases h : (env.middleware.UsernameCookie req s.store).1.2 with
  | none =>
    simp [h, middleware.UsernameCookie, middleware.Logout, middleware.IsLoggedIn, log.Printf,
      writes, List.countP_append, Event.isWrite]
  | some e =>
    simp [h, middleware.UsernameCookie, middleware.Logout, middleware.IsLoggedIn, log.Printf,
      http.Error, writes, List.countP_append, Event.isWrite]

/-- The dispatch of the route table of `main`, pattern by pattern. -/
theorem main_mux_ServeHTTP {σ : Type} (env : Env σ) (w : ResponseWriter) (req : Request)
    (s : World σ) :
    (main.mux env).ServeHTTP w req s =
      if req.Path = "/info" then infoHandler env w req s
      else if req.Path = "/register" then registerHandler env w req s
      else if req.Path = "/admin/remove" then notImplementedHandler w req s
      else if req.Path = "/login" then loginHandler env w req s
      else if req.Path = "/logout" then logoutHandler env w req s
      else if req.Path = "/admin/makeadmin" then notImplementedHandler w req s
      else if req.Path = "/data" then notImplementedHandler w req s
      else if req.Path = "/admin" then notImplementedHandler w req s
      else NotFound w req s := by
  simp only [main.mux, ServeMux.HandleFunc, NewServeMux, ServeMux.ServeHTTP, ServeMux.Handler,
    List.nil_append, List.cons_append, List.find?_cons, List.find?_nil]
  have e : ∀ p : String, ¬ req.Path = p → (p == req.Path) = false := by
    intro p hp
    simp only [beq_eq_false_iff_ne, ne_eq]
    exact fun hq => hp hq.symm
  split_ifs with h1 h2 h3 h4 h5 h6 h7 h8
  · simp [h1]
  · simp [e _ h1, h2]
  · simp [e _ h1, e _ h2, h3]
  · simp [e _ h1, e _ h2, e _ h3, h4]
  · simp [e _ h1, e _ h2, e _ h3, e _ h4, h5]
  · simp [e _ h1, e _ h2, e _ h3, e _ h4, e _ h5, h6]
  · simp [e _ h1, e _ h2, e _ h3, e _ h4, e _ h5, e _ h6, h7]
  · simp [e _ h1, e _ h2, e _ h3, e _ h4, e _ h5, e _ h6, e _ h7, h8]
  · simp [e _ h1, e _ h2, e _ h3, e _ h4, e _ h5, e _ h6, e _ h7, e _ h8]

/-! ## The service as wired in `main` -/

/-- C3 as stated fails: with an oracle that rejects nothing, a `GET /info`
request is matched by the `/info` handler, which only logs: during the
invocation of the gate no response is written to the sink. -/
theorem ServeHTTP_info_writes_nothing :
    writes 0 (emitted emptyWorld
        ((main.Handler allowAll demoEnv).ServeHTTP 0 ⟨"GET", "/info", [], ""⟩ emptyWorld)) = 0
      ∧ ¬ writes 0 (emitted emptyWorld
        ((main.Handler allowAll demoEnv).ServeHTTP 0 ⟨"GET", "/info", [], ""⟩ emptyWorld))
          = 1 := by
  decide

/-- C3, amended: when the oracle writes nothing to the sink, at most one
response is written to it during one invocation of the gate, and exactly one
except where the matched handler returns without answering.  Exactly one: when
the request is denied; when it is allowed and unmatched or matched by one of
`/admin`, `/admin/remove`, `/admin/makeadmin`, `/data`; on `/register` when the
body does not decode; on `/login` for a method other than `POST`, a body that
does not decode, a wrong password, or an error from `Login`; on `/logout` when
`UsernameCookie` returns an error.  None: on `/info`; on `/register` when the
body decodes; on `/login` when `Login` succeeds; on `/logout` when the cookie
is read. -/
theorem ServeHTTP_writes_at_most_one {σ : Type} (perm : IPermissions (World σ)) (env : Env σ)
    (w : ResponseWriter) (req : Request) (s : World σ)
    (hO : writes w (perm.Rejected w req s).2.trace = writes w s.trace) :
    writes w ((main.Handler perm env).ServeHTTP w req s).trace ≤ writes w s.trace + 1
      ∧ ((perm.Rejected w req s).1 = true →
          writes w ((main.Handler perm env).ServeHTTP w req s).trace = writes w s.trace + 1)
      ∧ ((perm.Rejected w req s).1 = false →
          req.Path ∉ ["/info", "/register", "/login", "/logout"] →
          writes w ((main.Handler perm env).ServeHTTP w req s).trace = writes w s.trace + 1)
      ∧ ((perm.Rejected w req s).1 = false → req.Path = "/info" →
          writes w ((main.Handler perm env).ServeHTTP w req s).trace = writes w s.trace)
      ∧ ((perm.Rejected w req s).1 = false → req.Path = "/register" →
          (env.decodeRegister req.Body = none →
            writes w ((main.Handler perm env).ServeHTTP w req s).trace = writes w s.trace + 1)
          ∧ (∀ r, env.decodeRegister req.Body = some r →
            writes w ((main.Handler perm env).ServeHTTP w req s).trace = writes w s.trace))
      ∧ ((perm.Rejected w req s).1 = false → req.Path = "/logout" →
          (∀ err, (env.middleware.UsernameCookie req (perm.Rejected w req s).2.store).1.2
              = some err →
            writes w ((main.Handler perm env).ServeHTTP w req s).trace = writes w s.trace + 1)
          ∧ ((env.middleware.UsernameCookie req (perm.Rejected w req s).2.store).1.2 = none →
            writes w ((main.Handler perm env).ServeHTTP w req s).trace = writes w s.trace))
      ∧ ((perm.Rejected w req s).1 = false → req.Path = "/login" →
          (req.Method ≠ "POST" →
            writes w ((main.Handler perm env).ServeHTTP w req s).trace = writes w s.trace + 1)
          ∧ (req.Method = "POST" → env.decodeLogin req.Body = none →
            writes w ((main.Handler perm env).ServeHTTP w req s).trace = writes w s.trace + 1)
          ∧ (∀ u p, req.Method = "POST" → env.decodeLogin req.Body = some ⟨u, p⟩ →
            (env.middleware.CorrectPassword u p (perm.Rejected w req s).2.store).1 = false →
            writes w ((main.Handler perm env).ServeHTTP w req s).trace = writes w s.trace + 1)
          ∧ (∀ u p err, req.Method = "POST" → env.decodeLogin req.Body = some ⟨u, p⟩ →
            (env.middleware.CorrectPassword u p (perm.Rejected w req s).2.store).1 = true →
            (env.middleware.Login w u
              (env.middleware.CorrectPassword u p (perm.Rejected w req s).2.store).2).1
                = some err →
            writes w ((main.Handler perm env).ServeHTTP w req s).trace = writes w s.trace + 1)
          ∧ (∀ u p, req.Method = "POST" → env.decodeLogin req.Body = some ⟨u, p⟩ →
            (env.middleware.CorrectPassword u p (perm.Rejected w req s).2.store).1 = true →
            (env.middleware.Login w u
              (env.middleware.CorrectPassword u p (perm.Rejected w req s).2.store).2).1
                = none →
            writes w ((main.Handler perm env).ServeHTTP w req s).trace = writes w s.trace)) := by
  have hgate : (main.Handler perm env).ServeHTTP w req s =
      if (perm.Rejected w req s).1 then main.denyFunction w req (perm.Rejected w req s).2
      else (main.mux env).ServeHTTP w req (perm.Rejected w req s).2 := rfl
  rw [hgate, main_mux_ServeHTTP]
  generalize (perm.Rejected w req s).2 = s1 at hO ⊢
  have hE : ∀ (error : String) (code : Nat),
      writes w (http.Error w error code s1).trace = writes w s.trace + 1 := by
    intro error code
    rw [writes_Error, hO]
  have hI := writes_infoHandler env w w req s1
  have hR := writes_registerHandler env w req s1
  have hL := writes_loginHandler env w req s1
  have hX := writes_logoutHandler env w req s1
  have hR' := writes_registerHandler_eq env w req s1
  have hL' := writes_loginHandler_eq env w req s1
  have hX' := writes_logoutHandler_eq env w req s1
  rw [hO] at hI hR hL hX hR' hL' hX'
  cases hv : (perm.Rejected w req s).1 with
  | true => simp [main.denyFunction, hE]
  | false =>
    simp only [Bool.false_eq_true, if_false, false_implies, true_implies, true_and,
      List.mem_cons, List.mem_singleton, List.not_mem_nil, or_false, not_or]
    refine ⟨?_, ?_, ?_, ?_, ?_, ?_⟩
    · split_ifs <;> simp [notImplementedHandler, NotFound, hE, hI, hR, hL, hX]
    · rintro ⟨h1, h2, h3, h4⟩
      simp only [h1, h2, h3, h4, if_false]
      split_ifs <;> simp [notImplementedHandler, NotFound, hE]
    · intro h1
      simp [h1, hI]
    · intro h1
      simp only [h1]
      refine ⟨?_, ?_⟩
      · intro hd
        simp [hR', hd]
      · intro r hd
        simp [hR', hd]
    · intro h1
      simp only [h1]
      refine ⟨?_, ?_⟩
      · intro err hc
        simp [hX', hc]
      · intro hc
        simp [hX', hc]
    · intro h1
      simp only [h1]
      refine ⟨?_, ?_, ?_, ?_, ?_⟩
      · intro hm
        simp [hL', hm]
      · intro hm hd
        simp [hL', hm, hd]
      · intro u p hm hd hc
        simp [hL', hm, hd, hc]
      · intro u p err hm hd hc hl
        simp [hL', hm, hd, hc, hl]
      · intro u p hm hd hc hl
        simp [hL', hm, hd, hc, hl]

/-- Witness for C3, amended, with the counts computed: a denied `GET /admin`
(one), a `POST /register` with an empty body (one) and with a payload (none),
a `GET /login` (one), and a `/logout` without cookie (one). -/
theorem ServeHTTP_writes_at_most_one_witness :
    writes 0 (adminOracle.Rejected 0 ⟨"GET", "/admin", [], ""⟩ emptyWorld).2.trace
        = writes 0 emptyWorld.trace
      ∧ writes 0 ((main.Handler adminOracle demoEnv).ServeHTTP 0 ⟨"GET", "/admin", [], ""⟩
          emptyWorld).trace = 1
      ∧ writes 0 ((main.Handler adminOracle demoEnv).ServeHTTP 0
          ⟨"POST", "/register", [], ""⟩ emptyWorld).trace = 1
      ∧ writes 0 ((main.Handler adminOracle demoEnv).ServeHTTP 0
          ⟨"POST", "/register", [], bobBody⟩ emptyWorld).trace = 0
      ∧ writes 0 ((main.Handler adminOracle demoEnv).ServeHTTP 0
          ⟨"GET", "/login", [], bobBody⟩ emptyWorld).trace = 1
      ∧ writes 0 ((main.Handler adminOracle demoEnv).ServeHTTP 0
          ⟨"GET", "/logout", [], ""⟩ emptyWorld).trace = 1 :=
  ⟨by decide,
   (ServeHTTP_writes_at_most_one adminOracle demoEnv 0 ⟨"GET", "/admin", [], ""⟩ emptyWorld
      (by decide)).2.1 (by decide),
   ((ServeHTTP_writes_at_most_one adminOracle demoEnv 0 ⟨"POST", "/register", [], ""⟩
      emptyWorld (by decide)).2.2.2.2.1 (by decide) (by decide)).1 (by decide),
   ((ServeHTTP_writes_at_most_one adminOracle demoEnv 0 ⟨"POST", "/register", [], bobBody⟩
      emptyWorld (by decide)).2.2.2.2.1 (by decide) (by decide)).2 ⟨"bob", "pw"⟩ (by decide),
   ((ServeHTTP_writes_at_most_one adminOracle demoEnv 0 ⟨"GET", "/login", [], bobBody⟩
      emptyWorld (by decide)).2.2.2.2.2.2 (by decide) (by decide)).1 (by decide),
   ((ServeHTTP_writes_at_most_one adminOracle demoEnv 0 ⟨"GET", "/logout", [], ""⟩
      emptyWorld (by decide)).2.2.2.2.2.1 (by decide) (by decide)).1 "no cookie" (by decide)⟩

/-- C6: the service as wired in `main`, behind an oracle that rejects exactly
the paths starting with `/admin`.  A request to `/admin` gets the one response
403 "Permission denied!" and the gate calls the oracle and the deny function
only, so neither the router nor the `/admin` handler it would have chosen
runs and no 501 is produced.  A request to `/info` is passed to the router,
which picks the handler registered under `/info`; the deny function is not
called and the effect is that handler's. -/
theorem main_admin_scenario {σ : Type} (env : Env σ) (w : ResponseWriter)
    (method body : String) (header : List (String × String)) (s : World σ) (l : List Call) :
    (spied (main.Handler adminOracle env)).ServeHTTP w ⟨method, "/admin", header, body⟩ (s, l)
        = (http.Error w "Permission denied!" 403 s,
           l ++ [Call.Rejected w ⟨method, "/admin", header, body⟩ true,
                 Call.Deny w ⟨method, "/admin", header, body⟩])
      ∧ emitted s ((main.Handler adminOracle env).ServeHTTP w
          ⟨method, "/admin", header, body⟩ s) = [Event.Error w "Permission denied!" 403]
      ∧ (main.mux env).Handler ⟨method, "/admin", header, body⟩
          = (notImplementedHandler, "/admin")
      ∧ Event.Error w "Not implemented" 501 ∉ emitted s ((main.Handler adminOracle env).ServeHTTP
          w ⟨method, "/admin", header, body⟩ s)
      ∧ (main.mux env).Handler ⟨method, "/info", header, body⟩ = (infoHandler env, "/info")
      ∧ (spied (main.Handler adminOracle env)).ServeHTTP w ⟨method, "/info", header, body⟩ (s, l)
        = (infoHandler env w ⟨method, "/info", header, body⟩ s,
           l ++ [Call.Rejected w ⟨method, "/info", header, body⟩ false,
                 Call.Dispatch w ⟨method, "/info", header, body⟩]) := by
  have hA : startsWith "/admin" "/admin" = true := by decide
  have hI : startsWith "/info" "/admin" = false := by decide
  have h1 : (main.Handler adminOracle env).ServeHTTP w ⟨method, "/admin", header, body⟩ s
      = http.Error w "Permission denied!" 403 s := by
    simp [permissionHandler.ServeHTTP, main.Handler, adminOracle, IPermissions.SetDenyFunction,
      IPermissions.DenyFunction, hA, main.denyFunction, http.StatusForbidden]
  have h2 : emitted s (http.Error w "Permission denied!" 403 s)
      = [Event.Error w "Permission denied!" 403] := emitted_append s s.store _
  refine ⟨?_, ?_, ?_, ?_, ?_, ?_⟩
  · simp [permissionHandler.ServeHTTP, spied, spyPerm, spyMux, main.Handler, adminOracle,
      IPermissions.SetDenyFunction, IPermissions.DenyFunction, hA, main.denyFunction,
      http.StatusForbidden]
  · rw [h1, h2]
  · rfl
  · rw [h1, h2]
    simp
  · rfl
  · simp [permissionHandler.ServeHTTP, spied, spyPerm, spyMux, main.Handler, adminOracle,
      IPermissions.SetDenyFunction, IPermissions.DenyFunction, hI, ServeMux.toMux,
      main_mux_ServeHTTP]

/-! ## The handlers -/

/-- The `/login` handler emits a `Login` call for `u` exactly on a `POST` whose
body decodes to `(u, p)` with `CorrectPassword` true, and its three refusals
are the bare error responses. -/
theorem loginHandler_guards {σ : Type} (env : Env σ) (w : ResponseWriter) (req : Request)
    (s : World σ) :
    (∀ w' u, Event.Login w' u ∈ emitted s (loginHandler env w req s) ↔
        w' = w ∧ req.Method = "POST" ∧ ∃ p, env.decodeLogin req.Body = some ⟨u, p⟩ ∧
          (env.middleware.CorrectPassword u p s.store).1 = true)
      ∧ (req.Method ≠ "POST" → loginHandler env w req s = http.Error w "Not Found" 404 s)
      ∧ (req.Method = "POST" → env.decodeLogin req.Body = none →
          loginHandler env w req s = http.Error w "Malformed input" 400 s)
      ∧ (∀ u p, req.Method = "POST" → env.decodeLogin req.Body = some ⟨u, p⟩ →
          (env.middleware.CorrectPassword u p s.store).1 = false →
          emitted s (loginHandler env w req s)
              = [Event.CorrectPassword u p, Event.Error w "Wrong password" 403]
            ∧ (loginHandler env w req s).store
              = (env.middleware.CorrectPassword u p s.store).2) := by
  unfold loginHandler
  by_cases hm : req.Method = "POST"
  · cases hd : env.decodeLogin req.Body with
    | none =>
      simp [hm, http.Error, http.StatusBadRequest, emitted]
    | some r =>
      obtain ⟨u0, p0⟩ := r
      by_cases hc : (env.middleware.CorrectPassword u0 p0 s.store).1 = true
      · cases hl : (env.middleware.Login w u0
            (env.middleware.CorrectPassword u0 p0 s.store).2).1 with
        | none =>
          simp only [hm, hc, hl, middleware.CorrectPassword, middleware.Login, log.Printf,
            emitted, if_true, List.append_assoc, List.drop_left]
          refine ⟨?_, by simp, by simp, ?_⟩
          · intro w' u
            constructor
            · intro h
              simp at h
              obtain ⟨h1, h2⟩ := h
              subst h1 h2
              exact ⟨rfl, trivial, p0, rfl, hc⟩
            · rintro ⟨h1, -, p, h2, -⟩
              simp at h2
              simp [h1, h2.1]
          · intro u p _ h2 h3
            simp at h2
            rw [← h2.1, ← h2.2, hc] at h3
            exact absurd h3 (by simp)
        | some e =>
          simp only [hm, hc, hl, middleware.CorrectPassword, middleware.Login, log.Printf,
            http.Error, emitted, if_true, List.append_assoc, List.drop_left]
          refine ⟨?_, by simp, by simp, ?_⟩
          · intro w' u
            constructor
            · intro h
              simp at h
              obtain ⟨h1, h2⟩ := h
              subst h1 h2
              exact ⟨rfl, trivial, p0, rfl, hc⟩
            · rintro ⟨h1, -, p, h2, -⟩
              simp at h2
              simp [h1, h2.1]
          · intro u p _ h2 h3
            simp at h2
            rw [← h2.1, ← h2.2, hc] at h3
            exact absurd h3 (by simp)
      · simp only [Bool.not_eq_true] at hc
        simp only [hm, hc, middleware.CorrectPassword, http.Error, http.StatusForbidden,
          emitted, List.append_assoc, List.drop_left]
        refine ⟨?_, by simp, by simp, ?_⟩
        · intro w' u
          constructor
          · intro h
            simp at h
          · rintro ⟨-, -, p, h2, h3⟩
            simp at h2
            rw [← h2.1, ← h2.2, hc] at h3
            exact absurd h3 (by simp)
        · intro u p _ h2 _
          simp at h2
          simp [h2.1, h2.2]
  · simp [hm, http.Error, http.StatusNotFound, emitted]

/-- C7: the `/login` handler calls the session `Login` for the user `u` (on
the sink of the request) if and only if the method is `POST`, the body decodes
to a payload with username `u` and some password `p`, and `CorrectPassword`
returns true on `(u, p)`.  Otherwise nothing but the error response happens:
404 for another method, 400 for a body that does not decode, 403 after a wrong
password.  When the three conditions hold the handler runs `CorrectPassword`
and then `Login(w, u)` on the store: the store is the one `Login` leaves, with
a log line and no response when `Login` succeeds, and a log line followed by
the response 500 when `Login` returns an error. -/
theorem loginHandler_spec {σ : Type} (env : Env σ) (w : ResponseWriter) (req : Request)
    (s : World σ) :
    (∀ w' u, Event.Login w' u ∈ emitted s (loginHandler env w req s) ↔
        w' = w ∧ req.Method = "POST" ∧ ∃ p, env.decodeLogin req.Body = some ⟨u, p⟩ ∧
          (env.middleware.CorrectPassword u p s.store).1 = true)
      ∧ (req.Method ≠ "POST" → loginHandler env w req s = http.Error w "Not Found" 404 s)
      ∧ (req.Method = "POST" → env.decodeLogin req.Body = none →
          loginHandler env w req s = http.Error w "Malformed input" 400 s)
      ∧ (∀ u p, req.Method = "POST" → env.decodeLogin req.Body = some ⟨u, p⟩ →
          (env.middleware.CorrectPassword u p s.store).1 = false →
          emitted s (loginHandler env w req s)
              = [Event.CorrectPassword u p, Event.Error w "Wrong password" 403]
            ∧ (loginHandler env w req s).store
              = (env.middleware.CorrectPassword u p s.store).2)
      ∧ (∀ u p, req.Method = "POST" → env.decodeLogin req.Body = some ⟨u, p⟩ →
          (env.middleware.CorrectPassword u p s.store).1 = true →
          (env.middleware.Login w u (env.middleware.CorrectPassword u p s.store).2).1 = none →
          emitted s (loginHandler env w req s)
              = [Event.CorrectPassword u p, Event.Login w u,
                 Event.Printf ("Logged in user " ++ u)]
            ∧ (loginHandler env w req s).store
              = (env.middleware.Login w u (env.middleware.CorrectPassword u p s.store).2).2)
      ∧ (∀ u p err, req.Method = "POST" → env.decodeLogin req.Body = some ⟨u, p⟩ →
          (env.middleware.CorrectPassword u p s.store).1 = true →
          (env.middleware.Login w u (env.middleware.CorrectPassword u p s.store).2).1
            = some err →
          emitted s (loginHandler env w req s)
              = [Event.CorrectPassword u p, Event.Login w u,
                 Event.Printf ("Cannot requests user:  " ++ err),
                 Event.Error w "Internal Server error" 500]
            ∧ (loginHandler env w req s).store
              = (env.middleware.Login w u
                  (env.middleware.CorrectPassword u p s.store).2).2) := by
  obtain ⟨hA, hB, hC, hD⟩ := loginHandler_guards env w req s
  refine ⟨hA, hB, hC, hD, ?_, ?_⟩
  · intro u p hm hd hc hl
    simp [loginHandler, hm, hd, hc, hl, middleware.CorrectPassword, middleware.Login,
      log.Printf, emitted]
  · intro u p err hm hd hc hl
    simp [loginHandler, hm, hd, hc, hl, middleware.CorrectPassword, middleware.Login,
      log.Printf, http.Error, http.StatusInternalServerError, emitted]

/-- Witness for C7: `bob` logs in with the right password and the store gains
his session; a `GET` is answered 404, an empty body 400, the right password of
nobody 403, and a `Login` that fails 500. -/
theorem loginHandler_spec_witness :
    Event.Login 0 "bob" ∈ emitted bobWorld
        (loginHandler demoEnv 0 ⟨"POST", "/login", [], bobBody⟩ bobWorld)
      ∧ loginHandler demoEnv 0 ⟨"GET", "/login", [], bobBody⟩ bobWorld
        = http.Error 0 "Not Found" 404 bobWorld
      ∧ loginHandler demoEnv 0 ⟨"POST", "/login", [], ""⟩ bobWorld
        = http.Error 0 "Malformed input" 400 bobWorld
      ∧ emitted emptyWorld (loginHandler demoEnv 0 ⟨"POST", "/login", [], bobBody⟩ emptyWorld)
        = [Event.CorrectPassword "bob" "pw", Event.Error 0 "Wrong password" 403]
      ∧ (loginHandler demoEnv 0 ⟨"POST", "/login", [], bobBody⟩ bobWorld).store
        = (demoUserState.Login 0 "bob" (demoUserState.CorrectPassword "bob" "pw"
            bobWorld.store).2).2
      ∧ emitted bobWorld (loginHandler brokenLoginEnv 0 ⟨"POST", "/login", [], bobBody⟩
          bobWorld)
        = [Event.CorrectPassword "bob" "pw", Event.Login 0 "bob",
           Event.Printf ("Cannot requests user:  " ++ "store closed"),
           Event.Error 0 "Internal Server error" 500] :=
  ⟨((loginHandler_spec demoEnv 0 ⟨"POST", "/login", [], bobBody⟩ bobWorld).1 0 "bob").2
      ⟨rfl, by decide, "pw", by decide, by decide⟩,
   (loginHandler_spec demoEnv 0 ⟨"GET", "/login", [], bobBody⟩ bobWorld).2.1 (by decide),
   (loginHandler_spec demoEnv 0 ⟨"POST", "/login", [], ""⟩ bobWorld).2.2.1
      (by decide) (by decide),
   ((loginHandler_spec demoEnv 0 ⟨"POST", "/login", [], bobBody⟩ emptyWorld).2.2.2.1
      "bob" "pw" (by decide) (by decide) (by decide)).1,
   ((loginHandler_spec demoEnv 0 ⟨"POST", "/login", [], bobBody⟩ bobWorld).2.2.2.2.1
      "bob" "pw" (by decide) (by decide) (by decide) (by decide)).2,
   ((loginHandler_spec brokenLoginEnv 0 ⟨"POST", "/login", [], bobBody⟩ bobWorld).2.2.2.2.2
      "bob" "pw" "store closed" (by decide) (by decide) (by decide) (by decide)).1⟩

/-- C8 fails on the code: the `/register` handler never looks at the method.
A `GET /register` carrying a registration payload, served by the gate behind
an oracle that rejects nothing, calls `AddUser` and `MarkConfirmed` and
changes the user store, writing no error response. -/
theorem registerHandler_get_creates_user :
    (main.Handler allowAll demoEnv).ServeHTTP 0 ⟨"GET", "/register", [], bobBody⟩ emptyWorld
      = ⟨⟨[("bob", "pw")], []⟩,
         [Event.AddUser "bob" "pw" "", Event.MarkConfirmed "bob",
          Event.Printf "User bob was created"]⟩ := by
  decide

/-- C9: when the body does not decode, the `/register` handler answers 400
"Bad request" and does nothing else, so the store is unchanged; when it
decodes to `(u, p)`, the handler calls `AddUser(u, p, "")`, then
`MarkConfirmed(u)`, once each, logs a line, and writes no response. -/
theorem registerHandler_spec {σ : Type} (env : Env σ) (w : ResponseWriter) (req : Request)
    (s : World σ) :
    (env.decodeRegister req.Body = none →
        registerHandler env w req s = http.Error w "Bad request" 400 s
          ∧ (registerHandler env w req s).store = s.store
          ∧ emitted s (registerHandler env w req s) = [Event.Error w "Bad request" 400])
      ∧ (∀ u p, env.decodeRegister req.Body = some ⟨u, p⟩ →
        emitted s (registerHandler env w req s)
            = [Event.AddUser u p "", Event.MarkConfirmed u,
               Event.Printf ("User " ++ u ++ " was created")]
          ∧ (registerHandler env w req s).store
            = env.middleware.MarkConfirmed u (env.middleware.AddUser u p "" s.store)) := by
  unfold registerHandler
  constructor
  · intro h
    simp [h, http.Error, http.StatusBadRequest, emitted]
  · intro u p h
    simp [h, middleware.AddUser, middleware.MarkConfirmed, log.Printf, emitted]

/-- Witness for C9: an empty body is answered 400, and `bobBody` registers `bob`. -/
theorem registerHandler_spec_witness :
    registerHandler demoEnv 0 ⟨"POST", "/register", [], ""⟩ emptyWorld
        = http.Error 0 "Bad request" 400 emptyWorld
      ∧ emitted emptyWorld (registerHandler demoEnv 0 ⟨"POST", "/register", [], bobBody⟩
          emptyWorld)
        = [Event.AddUser "bob" "pw" "", Event.MarkConfirmed "bob",
           Event.Printf ("User " ++ "bob" ++ " was created")] :=
  ⟨((registerHandler_spec demoEnv 0 ⟨"POST", "/register", [], ""⟩ emptyWorld).1
      (by decide)).1,
   ((registerHandler_spec demoEnv 0 ⟨"POST", "/register", [], bobBody⟩ emptyWorld).2
      "bob" "pw" (by decide)).1⟩

/-- C10: when `UsernameCookie` returns an error together with the name `u`,
the `/logout` handler writes 400 "Bad request" and still calls `Logout(u)`;
when it returns `u` without error, the handler calls `Logout(u)` once and
writes no response.  Either way it then asks `IsLoggedIn(u)` and logs. -/
theorem logoutHandler_spec {σ : Type} (env : Env σ) (w : ResponseWriter) (req : Request)
    (s : World σ) :
    (∀ u err, (env.middleware.UsernameCookie req s.store).1 = (u, some err) →
        emitted s (logoutHandler env w req s)
            = [Event.UsernameCookie req, Event.Error w "Bad request" 400, Event.Logout u,
               Event.IsLoggedIn u,
               Event.Printf (u ++ " is now logged out: " ++
                 fmtBool (!(env.middleware.IsLoggedIn u (env.middleware.Logout u
                   (env.middleware.UsernameCookie req s.store).2)).1) ++ "\n")])
      ∧ (∀ u, (env.middleware.UsernameCookie req s.store).1 = (u, none) →
        emitted s (logoutHandler env w req s)
            = [Event.UsernameCookie req, Event.Logout u, Event.IsLoggedIn u,
               Event.Printf (u ++ " is now logged out: " ++
                 fmtBool (!(env.middleware.IsLoggedIn u (env.middleware.Logout u
                   (env.middleware.UsernameCookie req s.store).2)).1) ++ "\n")])
      ∧ (logoutHandler env w req s).store
          = (env.middleware.IsLoggedIn (env.middleware.UsernameCookie req s.store).1.1
              (env.middleware.Logout (env.middleware.UsernameCookie req s.store).1.1
                (env.middleware.UsernameCookie req s.store).2)).2 := by
  unfold logoutHandler
  refine ⟨?_, ?_, ?_⟩
  · intro u err h
    simp [h, middleware.UsernameCookie, middleware.Logout, middleware.IsLoggedIn, log.Printf,
      http.Error, http.StatusBadRequest, emitted]
  · intro u h
    simp [h, middleware.UsernameCookie, middleware.Logout, middleware.IsLoggedIn, log.Printf,
      emitted]
  · cases h : (env.middleware.UsernameCookie req s.store).1.2 <;>
      simp [h, middleware.UsernameCookie, middleware.Logout, middleware.IsLoggedIn,
        log.Printf, http.Error]

/-- Witness for C10: a request without the `User` header is answered 400 and
`Logout` is still called, with the empty name; with the header, no response. -/
theorem logoutHandler_spec_witness :
    emitted emptyWorld (logoutHandler demoEnv 0 ⟨"GET", "/logout", [], ""⟩ emptyWorld)
        = [Event.UsernameCookie ⟨"GET", "/logout", [], ""⟩, Event.Error 0 "Bad request" 400,
           Event.Logout "", Event.IsLoggedIn "",
           Event.Printf ("" ++ " is now logged out: " ++ fmtBool (!false) ++ "\n")]
      ∧ emitted emptyWorld
          (logoutHandler demoEnv 0 ⟨"GET", "/logout", [("User", "bob")], ""⟩ emptyWorld)
        = [Event.UsernameCookie ⟨"GET", "/logout", [("User", "bob")], ""⟩,
           Event.Logout "bob", Event.IsLoggedIn "bob",
           Event.Printf ("bob" ++ " is now logged out: " ++ fmtBool (!false) ++ "\n")] :=
  ⟨(logoutHandler_spec demoEnv 0 ⟨"GET", "/logout", [], ""⟩ emptyWorld).1
      "" "no cookie" (by decide),
   (logoutHandler_spec demoEnv 0 ⟨"GET", "/logout", [("User", "bob")], ""⟩ emptyWorld).2.1
      "bob" (by decide)⟩

end Userservice
